import Mathlib

/-!
Verification of the promptlab prompt-analysis core.

Shallow embedding of `src/promptlab/patterns.py` and
`src/promptlab/analyzer.py` into Lean.  Conventions used throughout:

* Python floats are modelled as exact rationals (`ℚ`); all score
  arithmetic in the source is decimal arithmetic, and Python's
  `round(x, 1)` is modelled as decimal rounding to one fractional digit
  with ties going to the even multiple (`round1` below), matching
  Python's round-half-to-even.
* Python strings are Lean `String`s; the character classes appearing in
  the source's regexes (`\s`, `\w`, `\d`, case-insensitive matching) are
  modelled over their ASCII ranges, which is what every pattern and
  keyword bank of the source contains.
* Each regex of the source is embedded as a dedicated matching function
  that mirrors the Python `re` semantics (leftmost match, alternation
  priority, greedy whitespace runs, word boundaries) for the concrete
  patterns of the source.
-/

namespace PromptLab

/-- Python `\s` / `str.split()` / `str.strip()` whitespace, ASCII range. -/
def isSpaceChar (c : Char) : Bool :=
  c == ' ' || c == '\t' || c == '\n' || c == '\r' || c == '\x0b' || c == '\x0c'

/-- Python `\w` word character, ASCII range: alphanumeric or underscore. -/
def isWordChar (c : Char) : Bool :=
  c.isAlphanum || c == '_'

/-- Sentence-ending punctuation, the class `[.!?]` of the source regexes. -/
def isPunct (c : Char) : Bool :=
  c == '.' || c == '!' || c == '?'

/-- Python `str.strip()` over the modelled whitespace class. -/
def pyStrip (s : String) : String :=
  ⟨((s.data.dropWhile isSpaceChar).reverse.dropWhile isSpaceChar).reverse⟩

/-- Python `str.lower()` (ASCII case folding, all keywords are ASCII). -/
def pyLower (s : String) : String :=
  ⟨s.data.map Char.toLower⟩

/-- Tests whether the first list is a prefix of the second. -/
def prefixEq : List Char → List Char → Bool
  | [], _ => true
  | _ :: _, [] => false
  | a :: as, b :: bs => a == b && prefixEq as bs

/-- Tests whether the first list occurs as a contiguous sublist of the
second. -/
def infixAt : List Char → List Char → Bool
  | needle, [] => prefixEq needle []
  | needle, c :: cs => prefixEq needle (c :: cs) || infixAt needle cs

/-- Python substring test `needle in hay`. -/
def strContains (hay needle : String) : Bool :=
  infixAt needle.data hay.data

/-- Counts maximal non-whitespace runs; the Boolean records whether the
previous character belonged to a token. -/
def wordsAux : Bool → List Char → Nat
  | _, [] => 0
  | inTok, c :: cs =>
    if isSpaceChar c then wordsAux false cs
    else if inTok then wordsAux true cs
    else 1 + wordsAux true cs

/-- `_count_words` (analyzer.py): `len(text.split())`. -/
def _count_words (s : String) : Nat :=
  wordsAux false s.data

mutual

/-- Fragment scanner for `_count_sentences`: walks the text outside a
punctuation run; the Boolean records whether the current fragment holds a
non-whitespace character. -/
def sentencesAux : Bool → List Char → Nat
  | hc, [] => if hc then 1 else 0
  | hc, c :: cs =>
    if isPunct c then punctRun hc cs
    else sentencesAux (hc || !isSpaceChar c) cs

/-- Inside a maximal `[.!?]+` run (at least one punctuation character has
been consumed).  A run followed by one whitespace character or by the end
of input is a split point of `re.split` with pattern `[.!?]+(?:\s|$)`; a
run followed by anything else belongs to the current fragment. -/
def punctRun : Bool → List Char → Nat
  | hc, [] => if hc then 1 else 0
  | hc, c :: cs =>
    if isPunct c then punctRun hc cs
    else if isSpaceChar c then (if hc then 1 else 0) + sentencesAux false cs
    else sentencesAux true cs

end

/-- `_count_sentences` (analyzer.py): split on `[.!?]+(?:\s|$)`, count the
fragments with non-blank content, floor the result at 1. -/
def _count_sentences (s : String) : Nat :=
  max 1 (sentencesAux false (pyStrip s).data)

/-- `_has_any_keyword` (analyzer.py). -/
def _has_any_keyword (textLower : String) (keywords : List String) : Bool :=
  keywords.any (fun kw => strContains textLower kw)

/-- `_count_keyword_hits` (analyzer.py). -/
def _count_keyword_hits (textLower : String) (keywords : List String) : Nat :=
  keywords.countP (fun kw => strContains textLower kw)

/-- Counter for `re.findall(r'\b\d+\b', text)`: counts maximal digit runs
whose neighbours on both sides are non-word characters (or the ends of the
text).  First flag: currently inside a digit run that started at a word
boundary; second flag: the previous character was a word character. -/
def numRunsAux : Bool → Bool → List Char → Nat
  | inRun, _, [] => if inRun then 1 else 0
  | inRun, prevWord, c :: cs =>
    if c.isDigit then
      if inRun then numRunsAux true true cs
      else if prevWord then numRunsAux false true cs
      else numRunsAux true true cs
    else
      (if inRun && !isWordChar c then 1 else 0) + numRunsAux false (isWordChar c) cs

/-- Count of `re.findall(r'\b\d+\b', text)` used by the clarity and
specificity scorers. -/
def countNumericTokens (s : String) : Nat :=
  numRunsAux false false s.data

/-- Matches a literal word case-insensitively (ASCII, the words of the
source patterns are lowercase ASCII); returns the consumed characters of
the input (original case) and the rest. -/
def matchLit : List Char → List Char → Option (List Char × List Char)
  | [], cs => some ([], cs)
  | _ :: _, [] => none
  | l :: ls, c :: cs =>
    if c.toLower == l.toLower then
      match matchLit ls cs with
      | some (t, r) => some (c :: t, r)
      | none => none
    else none

/-- Matches `\s+` as a maximal whitespace run (the continuation of every
source pattern after `\s+` begins with a letter, so the greedy maximal
run is the only viable amount). -/
def matchWs1 : List Char → Option (List Char × List Char)
  | [] => none
  | c :: cs =>
    if isSpaceChar c then some (c :: cs.takeWhile isSpaceChar, cs.dropWhile isSpaceChar)
    else none

/-- True when a `\b` word boundary holds after a just-matched word:
end of input or a non-word character next. -/
def wordBoundaryAfter : List Char → Bool
  | [] => true
  | c :: _ => !isWordChar c

/-- Matches a sequence of words joined by `\s+`. -/
def matchSeqWords : List String → List Char → Option (List Char × List Char)
  | [], cs => some ([], cs)
  | [w], cs => matchLit w.data cs
  | w :: ws, cs =>
    match matchLit w.data cs with
    | none => none
    | some (t1, r1) =>
      match matchWs1 r1 with
      | none => none
      | some (t2, r2) =>
        match matchSeqWords ws r2 with
        | none => none
        | some (t3, r3) => some (t1 ++ t2 ++ t3, r3)

/-- Tries the alternatives of one regex group in order (Python alternation
priority); the alternatives of every source pattern are pairwise
non-overlapping at a given position, so first-match-wins is faithful. -/
def firstAlt : List (List String) → List Char → Option (List Char × List Char)
  | [], _ => none
  | a :: rest, cs =>
    match matchSeqWords a cs with
    | some r => some r
    | none => firstAlt rest cs

/-- Matches the slot list of a word pattern: groups joined by `\s+`. -/
def matchSlots : List (List (List String)) → List Char → Option (List Char × List Char)
  | [], cs => some ([], cs)
  | [slot], cs => firstAlt slot cs
  | slot :: rest, cs =>
    match firstAlt slot cs with
    | none => none
    | some (t1, r1) =>
      match matchWs1 r1 with
      | none => none
      | some (t2, r2) =>
        match matchSlots rest r2 with
        | none => none
        | some (t3, r3) => some (t1 ++ t2 ++ t3, r3)

/-- A compiled regex of the shape used by the source's signal patterns:
an optional `^` anchor, then word groups joined by `\s+`, with `\b` at
both ends (the anchored pattern has no leading `\b`).  `slots` lists the
groups; each group lists its alternatives; each alternative is a sequence
of words joined by `\s+`. -/
structure WordPat where
  anchored : Bool
  slots : List (List (List String))
deriving DecidableEq

/-- Matches a word pattern at the current position and checks the trailing
word boundary; returns the matched substring. -/
def wpMatchAt (p : WordPat) (cs : List Char) : Option (List Char) :=
  match matchSlots p.slots cs with
  | some (t, r) => if wordBoundaryAfter r then some t else none
  | none => none

/-- Scan of `re.search` for an unanchored pattern: tries every position
left to right; the leading `\b` holds exactly when the previous character
is absent or a non-word character (every pattern starts with a letter). -/
def wpSearchAux (p : WordPat) : Option Char → List Char → Option (List Char)
  | _, [] => none
  | prev, c :: cs =>
    let boundaryOk := match prev with
      | none => true
      | some pc => !isWordChar pc
    if boundaryOk then
      match wpMatchAt p (c :: cs) with
      | some t => some t
      | none => wpSearchAux p (some c) cs
    else wpSearchAux p (some c) cs

/-- `pattern.search(text)` for a source signal pattern, returning
`match.group()` (the matched substring, original case). -/
def wpSearch (p : WordPat) (s : String) : Option String :=
  if p.anchored then (wpMatchAt p s.data).map (fun t => ⟨t⟩)
  else (wpSearchAux p none s.data).map (fun t => ⟨t⟩)

/-- The task-verb alternation of `_count_distinct_tasks` (analyzer.py,
`verb_pattern`), in source order. -/
def TASK_VERBS : List String :=
  ["write", "create", "generate", "build", "make", "list", "explain",
   "describe", "summarize", "translate", "convert", "fix", "improve",
   "update", "edit", "rewrite", "help", "tell", "give", "design",
   "develop", "analyze", "compare", "review"]

/-- Matches one task verb followed by `\b`, trying the alternatives in
order; returns the rest of the input after the verb. -/
def matchVerbR : List String → List Char → Option (List Char)
  | [], _ => none
  | v :: rest, cs =>
    match matchLit v.data cs with
    | some (_, r) => if wordBoundaryAfter r then some r else matchVerbR rest cs
    | none => matchVerbR rest cs

/-- Matches one transition-word candidate (each word followed by `\s+`)
and then a task verb. -/
def matchTransSeq : List String → List Char → Option (List Char)
  | [], cs => matchVerbR TASK_VERBS cs
  | w :: ws, cs =>
    match matchLit w.data cs with
    | none => none
    | some (_, r) =>
      match matchWs1 r with
      | none => none
      | some (_, r2) => matchTransSeq ws r2

/-- The transition-phrase candidates of
`(?:(?:and\s+)?(?:also\s+|can\s+you\s+(?:also\s+)?)?)?` in Python
backtracking priority order (greedy optionals, alternation order, then
the empty match). -/
def TRANSITIONS : List (List String) :=
  [["and", "also"], ["and", "can", "you", "also"], ["and", "can", "you"],
   ["and"], ["also"], ["can", "you", "also"], ["can", "you"], []]

/-- Tries the transition candidates in priority order, then the verb. -/
def tryTransVerb : List (List String) → List Char → Option (List Char)
  | [], _ => none
  | t :: ts, cs =>
    match matchTransSeq t cs with
    | some r => some r
    | none => tryTransVerb ts cs

/-- One attempt of the task-starter regex
`(?:^|[.!?]\s+|\n\s*)(transitions)?(verb)\b` at the current position.
The boundary alternatives are tried in order: `^` (only at the start of
the text), `[.!?]\s+`, `\n\s*`.  Returns the rest after the match. -/
def taskStartAt (atStart : Bool) (cs : List Char) : Option (List Char) :=
  match (if atStart then tryTransVerb TRANSITIONS cs else none) with
  | some r => some r
  | none =>
    match cs with
    | [] => none
    | c :: rest =>
      if isPunct c then
        match matchWs1 rest with
        | some (_, r2) => tryTransVerb TRANSITIONS r2
        | none => none
      else if c == '\n' then
        tryTransVerb TRANSITIONS (rest.dropWhile isSpaceChar)
      else none

/-- `re.findall` scan for the task-starter regex: at each position try a
match; on success count it and resume after the match, otherwise advance
one character.  The fuel starts at the input length and dominates the
number of scan steps (every step consumes at least one character). -/
def scanTasksAux : Nat → Bool → List Char → Nat
  | 0, _, _ => 0
  | _, _, [] => 0
  | Nat.succ fuel, atStart, c :: cs =>
    match taskStartAt atStart (c :: cs) with
    | some r => 1 + scanTasksAux fuel false r
    | none => scanTasksAux fuel false cs

/-- Number of task-starter matches found by `re.findall` in
`_count_distinct_tasks`. -/
def taskStarterCount (s : String) : Nat :=
  scanTasksAux s.data.length true s.data

/-- `text.count("?")`. -/
def questionCount (s : String) : Nat :=
  s.data.count '?'

/-- `_count_distinct_tasks` (analyzer.py): task starters plus literal
question marks. -/
def _count_distinct_tasks (s : String) : Nat :=
  taskStarterCount s + questionCount s

/-- `Severity` (patterns.py). -/
inductive Severity where
  | low
  | medium
  | high
deriving DecidableEq

/-- `Severity.value` (the string value of the Python enum member). -/
def Severity.value : Severity → String
  | .low => "low"
  | .medium => "medium"
  | .high => "high"

/-- `Category` (patterns.py). -/
inductive Category where
  | structure_
  | clarity
  | specificity
  | scope
deriving DecidableEq

/-- `AntiPattern` (patterns.py). -/
structure AntiPattern where
  id : String
  name : String
  category : Category
  severity : Severity
  description : String
  suggestion : String
  positive_signals : List WordPat := []
  keyword_signals : List String := []
deriving DecidableEq

/-- `MISSING_ROLE` (patterns.py). -/
def MISSING_ROLE : AntiPattern where
  id := "missing_role"
  name := "Missing Role / Persona"
  category := .structure_
  severity := .medium
  description := "The prompt does not assign a role or persona to the AI."
  suggestion := "Start with a role assignment like \x27You are an experienced technical writer...\x27 to ground the AI\x27s perspective and expertise level."

/-- `MISSING_OUTPUT_FORMAT` (patterns.py). -/
def MISSING_OUTPUT_FORMAT : AntiPattern where
  id := "missing_output_format"
  name := "No Output Format Specified"
  category := .structure_
  severity := .medium
  description := "The prompt does not specify what format the output should take."
  suggestion := "Specify the desired output format, e.g. \x27Return the result as a numbered list\x27, \x27Format as JSON\x27, or \x27Write a 3-paragraph essay\x27."

/-- `MISSING_CONTEXT` (patterns.py). -/
def MISSING_CONTEXT : AntiPattern where
  id := "missing_context"
  name := "Missing Context / Background"
  category := .structure_
  severity := .high
  description := "The prompt lacks background information or context for the task."
  suggestion := "Add context about the audience, purpose, or background situation. For example: \x27I\x27m writing a blog for beginner Python developers...\x27"

/-- `VAGUE_LANGUAGE` (patterns.py).  The six compiled regexes of
`positive_signals` are embedded as word patterns in source order. -/
def VAGUE_LANGUAGE : AntiPattern where
  id := "vague_language"
  name := "Vague / Hand-wavy Language"
  category := .clarity
  severity := .high
  description := "The prompt uses vague qualifiers instead of concrete instructions."
  suggestion := "Replace vague words with specific criteria. Instead of \x27make it good\x27, say \x27ensure the tone is professional and each paragraph has a topic sentence\x27."
  positive_signals :=
    [⟨false, [[["make"]], [["it"]], [["good"], ["better"], ["nice"], ["great"], ["awesome"], ["perfect"]]]⟩,
     ⟨false, [[["improve"]], [["this"]]]⟩,
     ⟨false, [[["do"]], [["something"], ["a", "good", "job"], ["your", "best"]]]⟩,
     ⟨false, [[["something"]], [["about"], ["on"], ["related"]]]⟩,
     ⟨false, [[["whatever"]], [["you"]], [["think"]]]⟩,
     ⟨false, [[["just"]], [["make"]], [["it"]], [["work"]]]⟩]
  keyword_signals :=
    ["make it good", "make it better", "make it nice", "do something",
     "whatever you think", "you decide", "be creative", "do your best",
     "just make it work"]

/-- `AMBIGUOUS_PRONOUNS` (patterns.py); the single signal is anchored
(`^`), so it is only tried at the start of the text. -/
def AMBIGUOUS_PRONOUNS : AntiPattern where
  id := "ambiguous_pronouns"
  name := "Ambiguous Pronoun References"
  category := .clarity
  severity := .low
  description := "The prompt uses pronouns (\x27it\x27, \x27this\x27, \x27that\x27) without clear referents, which can confuse the model."
  suggestion := "Replace ambiguous pronouns with explicit nouns. Instead of \x27Improve it and make it shorter\x27, say \x27Improve the product description and reduce it to under 50 words\x27."
  positive_signals :=
    [⟨true, [[["fix"], ["improve"], ["change"], ["update"], ["rewrite"], ["edit"], ["modify"]],
             [["it"], ["this"], ["that"]]]⟩]

/-- `NO_CONSTRAINTS` (patterns.py). -/
def NO_CONSTRAINTS : AntiPattern where
  id := "no_constraints"
  name := "No Constraints or Boundaries"
  category := .specificity
  severity := .medium
  description := "The prompt sets no limits on length, scope, tone, or format."
  suggestion := "Add constraints like word count, tone, audience level, or scope. Example: \x27Keep it under 200 words, written for a non-technical audience.\x27"

/-- `NO_EXAMPLES` (patterns.py). -/
def NO_EXAMPLES : AntiPattern where
  id := "no_examples"
  name := "No Examples Provided"
  category := .specificity
  severity := .low
  description := "The prompt does not include examples of desired input/output, which helps the model understand expectations."
  suggestion := "Add 1-2 examples of what good output looks like. Few-shot examples dramatically improve output quality for structured tasks."

/-- `MULTIPLE_REQUESTS` (patterns.py).  Its `positive_signals` regex is
embedded for completeness; the detector dispatches on the id before the
generic signal branch, so it is never consulted. -/
def MULTIPLE_REQUESTS : AntiPattern where
  id := "multiple_requests"
  name := "Multiple Unrelated Requests"
  category := .scope
  severity := .high
  description := "The prompt appears to ask for several unrelated things at once, which dilutes focus and quality."
  suggestion := "Break this into separate prompts, one per task. If tasks are related, use numbered steps to impose order."
  positive_signals :=
    [⟨false, [[["also"], ["additionally"], ["and", "also"], ["on", "top", "of", "that"],
               ["by", "the", "way"], ["oh", "and"], ["plus", "also"], ["another", "thing"]]]⟩]

/-- `ROLE_KEYWORDS` (patterns.py). -/
def ROLE_KEYWORDS : List String :=
  ["you are", "act as", "acting as", "your role", "as a", "as an",
   "pretend you", "imagine you", "take the role", "persona", "you\x27re a",
   "you\x27re an", "play the role", "behave as", "respond as"]

/-- `OUTPUT_FORMAT_KEYWORDS` (patterns.py). -/
def OUTPUT_FORMAT_KEYWORDS : List String :=
  ["format", "output as", "return as", "respond with", "respond in",
   "in json", "as json", "as a list", "as a table", "numbered list",
   "bullet points", "bulleted list", "markdown", "csv", "xml", "yaml",
   "in the form of", "paragraph", "paragraphs", "essay", "report",
   "template", "code block", "formatted as"]

/-- `CONTEXT_SIGNALS` (patterns.py). -/
def CONTEXT_SIGNALS : List String :=
  ["background", "context", "for context", "the situation is",
   "the goal is", "the purpose is", "i\x27m working on", "i am working on",
   "the project is", "this is for", "the audience is", "the target",
   "we need", "my team", "our company", "my company", "the client",
   "the customer", "the user", "use case"]

/-- `CONSTRAINT_KEYWORDS` (patterns.py). -/
def CONSTRAINT_KEYWORDS : List String :=
  ["must", "should", "no more than", "no less than", "at most",
   "at least", "limit", "maximum", "minimum", "between", "within",
   "under", "constraint", "requirement", "do not", "don\x27t", "avoid",
   "never", "always", "keep it", "make sure", "ensure", "words",
   "sentences", "tone", "formal", "informal", "casual", "professional",
   "academic", "concise"]

/-- `EXAMPLE_KEYWORDS` (patterns.py). -/
def EXAMPLE_KEYWORDS : List String :=
  ["for example", "example:", "example of", "e.g.", "such as",
   "like this:", "here\x27s an example", "here is an example", "sample",
   "for instance", "input:", "output:", "expected:",
   "here\x27s what i mean", "here is what i mean"]

/-- `ALL_PATTERNS` (patterns.py), in declaration order. -/
def ALL_PATTERNS : List AntiPattern :=
  [MISSING_ROLE, MISSING_OUTPUT_FORMAT, MISSING_CONTEXT, VAGUE_LANGUAGE,
   AMBIGUOUS_PRONOUNS, NO_CONSTRAINTS, NO_EXAMPLES, MULTIPLE_REQUESTS]

/-!
Exact rational arithmetic used by the embedding.  The standard `ℚ`
operations of this toolchain are `@[irreducible]`, so concrete results
could not be evaluated by the kernel through them; the embedding
therefore computes with the following definitionally reducible versions,
each proved equal to the standard operation (`qAdd_eq` and friends), and
all proofs work over the standard operations via those bridge lemmas.
-/

/-- Reducible rational addition; equals `a + b`. -/
def qAdd (a b : ℚ) : ℚ := mkRat (a.num * b.den + b.num * a.den) (a.den * b.den)

/-- Reducible rational subtraction; equals `a - b`. -/
def qSub (a b : ℚ) : ℚ := mkRat (a.num * b.den - b.num * a.den) (a.den * b.den)

/-- Reducible rational multiplication; equals `a * b`. -/
def qMul (a b : ℚ) : ℚ := mkRat (a.num * b.num) (a.den * b.den)

/-- Reducible rational division; equals `a / b` (zero for `b = 0`). -/
def qDiv (a b : ℚ) : ℚ := Rat.divInt (a.num * b.den) (a.den * b.num)

/-- Python `min` on two rationals. -/
def pyMin (a b : ℚ) : ℚ := if a ≤ b then a else b

/-- Python `max` on two rationals. -/
def pyMax (a b : ℚ) : ℚ := if b ≤ a then a else b

lemma qAdd_eq (a b : ℚ) : qAdd a b = a + b := (Rat.add_def' a b).symm

lemma qSub_eq (a b : ℚ) : qSub a b = a - b := (Rat.sub_def' a b).symm

lemma qMul_eq (a b : ℚ) : qMul a b = a * b := by
  rw [qMul, Rat.mul_def, Rat.normalize_eq_mkRat]

lemma qDiv_eq (a b : ℚ) : qDiv a b = a / b := by
  rw [qDiv, Rat.divInt_eq_div]
  by_cases hb : b = 0
  · subst hb
    simp
  · have hbn : (b.num : ℚ) ≠ 0 := by
      exact_mod_cast fun h => hb (Rat.zero_iff_num_zero.mpr (by exact_mod_cast h))
    have had : ((a.den : ℚ)) ≠ 0 := by
      exact_mod_cast a.den_nz
    have hbd : ((b.den : ℚ)) ≠ 0 := by
      exact_mod_cast b.den_nz
    push_cast
    conv_rhs => rw [← Rat.num_div_den a, ← Rat.num_div_den b]
    field_simp

lemma pyMin_eq (a b : ℚ) : pyMin a b = min a b := (min_def a b).symm

lemma pyMax_eq (a b : ℚ) : pyMax a b = max a b := by
  unfold pyMax
  rcases le_total a b with h | h
  · rcases eq_or_lt_of_le h with rfl | hlt
    · simp
    · rw [if_neg (not_le.mpr hlt), max_eq_right h]
  · rw [if_pos h, max_eq_left h]

lemma ratFloor_eq (q : ℚ) : Rat.floor q = ⌊q⌋ := by
  rw [Rat.floor_def' q, Rat.floor_def]

/-- Rounds a rational to the nearest integer, ties to the even integer;
the integer-level core of Python `round(x, 1)`. -/
def rndHalfEven (q : ℚ) : ℤ :=
  if qSub q (Rat.floor q : ℚ) < mkRat 1 2 then Rat.floor q
  else if mkRat 1 2 < qSub q (Rat.floor q : ℚ) then Rat.floor q + 1
  else if Rat.floor q % 2 = 0 then Rat.floor q else Rat.floor q + 1

lemma rndHalfEven_spec (q : ℚ) :
    rndHalfEven q =
      if q - (⌊q⌋ : ℚ) < 1 / 2 then ⌊q⌋
      else if 1 / 2 < q - (⌊q⌋ : ℚ) then ⌊q⌋ + 1
      else if ⌊q⌋ % 2 = 0 then ⌊q⌋ else ⌊q⌋ + 1 := by
  have h12 : (mkRat 1 2 : ℚ) = 1 / 2 := by
    rw [Rat.mkRat_eq_div]
    norm_num
  rw [rndHalfEven, qSub_eq, ratFloor_eq, h12]

/-- Python `round(x, 1)`: round to one decimal digit, ties to even. -/
def round1 (q : ℚ) : ℚ :=
  qDiv (rndHalfEven (qMul 10 q) : ℚ) 10

lemma round1_spec (q : ℚ) : round1 q = (rndHalfEven (10 * q) : ℚ) / 10 := by
  rw [round1, qDiv_eq, qMul_eq]

/-- `DimensionScore` (analyzer.py). -/
structure DimensionScore where
  name : String
  score : ℚ
  max_score : ℚ := 10
  details : String := ""
deriving DecidableEq

/-- `DimensionScore.percentage`. -/
def DimensionScore.percentage (d : DimensionScore) : ℚ :=
  d.score / d.max_score * 100

/-- `DimensionScore.label`. -/
def DimensionScore.label (d : DimensionScore) : String :=
  if 8 ≤ d.score then "Excellent"
  else if 6 ≤ d.score then "Good"
  else if 4 ≤ d.score then "Fair"
  else if 2 ≤ d.score then "Weak"
  else "Poor"

/-- `DetectedAntiPattern` (analyzer.py). -/
structure DetectedAntiPattern where
  pattern : AntiPattern
  evidence : String := ""
deriving DecidableEq

/-- `AnalysisResult` (analyzer.py). -/
structure AnalysisResult where
  prompt : String
  dimensions : List DimensionScore := []
  anti_patterns : List DetectedAntiPattern := []
  suggestions : List String := []
  word_count : Nat := 0
  sentence_count : Nat := 0
deriving DecidableEq

/-- The weight of one dimension in `AnalysisResult.overall_score`:
`weights.get(dim.name, 0.25)`. -/
def weightOf (name : String) : ℚ :=
  if name = "Clarity" then mkRat 3 10
  else if name = "Structure" then mkRat 1 4
  else if name = "Specificity" then mkRat 1 4
  else if name = "Length" then mkRat 1 5
  else mkRat 1 4

/-- `AnalysisResult.overall_score`: weighted average across all
dimensions, 0.0 for an empty dimension list or zero total weight. -/
def AnalysisResult.overall_score (r : AnalysisResult) : ℚ :=
  if r.dimensions = [] then 0
  else
    let acc := r.dimensions.foldl
      (fun (a : ℚ × ℚ) dim =>
        (qAdd a.1 (qMul dim.score (weightOf dim.name)), qAdd a.2 (weightOf dim.name)))
      (0, 0)
    if acc.2 = 0 then 0 else round1 (qDiv acc.1 acc.2)

/-- `AnalysisResult.overall_label`. -/
def AnalysisResult.overall_label (r : AnalysisResult) : String :=
  if 8 ≤ r.overall_score then "Excellent"
  else if 6 ≤ r.overall_score then "Good"
  else if 4 ≤ r.overall_score then "Fair"
  else if 2 ≤ r.overall_score then "Weak"
  else "Poor"

/-- `_score_clarity` (analyzer.py).  The pair carries the running score
and the `details_parts` list. -/
def _score_clarity (text textLower : String) : DimensionScore :=
  let vagueHits :=
    VAGUE_LANGUAGE.positive_signals.countP (fun p => (wpSearch p text).isSome) +
    VAGUE_LANGUAGE.keyword_signals.countP (fun kw => strContains textLower kw)
  let s1 : ℚ × List String :=
    if 3 ≤ vagueHits then (qSub 7 4, ["Multiple vague phrases detected"])
    else if 1 ≤ vagueHits then
      (qSub 7 (qMul 2 (vagueHits : ℚ)), [toString vagueHits ++ " vague phrase(s) detected"])
    else (7, [])
  let wc := _count_words text
  let s2 : ℚ × List String :=
    if wc < 5 then (qSub s1.1 3, s1.2 ++ ["Extremely short -- likely too ambiguous"])
    else if wc < 10 then (qSub s1.1 (mkRat 3 2), s1.2 ++ ["Very short -- may lack clarity"])
    else s1
  let s3 : ℚ × List String :=
    if 2 ≤ countNumericTokens text then (qAdd s2.1 1, s2.2 ++ ["Contains numeric specifics"])
    else s2
  let s4 : ℚ × List String :=
    if AMBIGUOUS_PRONOUNS.positive_signals.any (fun p => (wpSearch p text).isSome) then
      (qSub s3.1 (mkRat 3 2), s3.2 ++ ["Starts with an ambiguous pronoun reference"])
    else s3
  { name := "Clarity",
    score := round1 (pyMax 1 (pyMin 10 s4.1)),
    details := if s4.2 = [] then "Clear and specific" else String.intercalate "; " s4.2 }

/-- The 26-verb alternation of the structure scorer
(`re.findall(r'\b(write|...|calculate)\b', text_lower)`), in source
order. -/
def STRUCTURE_TASK_VERBS : List String :=
  ["write", "create", "generate", "build", "make", "list", "explain",
   "describe", "summarize", "translate", "convert", "fix", "improve",
   "update", "edit", "rewrite", "analyze", "compare", "design", "develop",
   "review", "draft", "compose", "produce", "outline", "calculate"]

/-- Whether `\b(verb alternation)\b` matches anywhere in the text (the
structure scorer only tests the match list for non-emptiness). -/
def hasVerbAux (vs : List String) : Option Char → List Char → Bool
  | _, [] => false
  | prev, c :: cs =>
    let boundaryOk := match prev with
      | none => true
      | some pc => !isWordChar pc
    if boundaryOk && (matchVerbR vs (c :: cs)).isSome then true
    else hasVerbAux vs (some c) cs

/-- Whether the structure scorer's task-verb regex has at least one
match. -/
def hasTaskVerb (textLower : String) : Bool :=
  hasVerbAux STRUCTURE_TASK_VERBS none textLower.data

/-- Python `detail_str.strip(". ")`: drop `.` and space characters from
both ends. -/
def stripDotSpace (s : String) : String :=
  ⟨((s.data.dropWhile (fun c => c == '.' || c == ' ')).reverse.dropWhile
      (fun c => c == '.' || c == ' ')).reverse⟩

/-- `_score_structure` (analyzer.py).  Each triple carries the running
score, the `present` list and the `missing` list. -/
def _score_structure (_text textLower : String) : DimensionScore :=
  let s1 : ℚ × List String × List String :=
    if _has_any_keyword textLower ROLE_KEYWORDS then (mkRat 5 2, ["role"], [])
    else (0, [], ["role/persona"])
  let s2 : ℚ × List String × List String :=
    if _has_any_keyword textLower CONTEXT_SIGNALS then
      (qAdd s1.1 (mkRat 5 2), s1.2.1 ++ ["context"], s1.2.2)
    else (s1.1, s1.2.1, s1.2.2 ++ ["context/background"])
  let s3 : ℚ × List String × List String :=
    if hasTaskVerb textLower then (qAdd s2.1 (mkRat 5 2), s2.2.1 ++ ["task"], s2.2.2)
    else (s2.1, s2.2.1, s2.2.2 ++ ["clear task verb"])
  let s4 : ℚ × List String × List String :=
    if _has_any_keyword textLower OUTPUT_FORMAT_KEYWORDS then
      (qAdd s3.1 (mkRat 5 2), s3.2.1 ++ ["output format"], s3.2.2)
    else (s3.1, s3.2.1, s3.2.2 ++ ["output format"])
  let detailStr :=
    (if s4.2.1 ≠ [] then "Has: " ++ String.intercalate ", " s4.2.1 else "") ++
    (if s4.2.2 ≠ [] then ". Missing: " ++ String.intercalate ", " s4.2.2 else "")
  { name := "Structure",
    score := round1 (pyMax 1 (pyMin 10 s4.1)),
    details := stripDotSpace detailStr }

/-- Non-blank line count of `_score_specificity`:
`[l for l in text.strip().split("\n") if l.strip()]`. -/
def splitNl : List Char → List (List Char)
  | [] => [[]]
  | c :: cs =>
    if c = '\n' then [] :: splitNl cs
    else
      match splitNl cs with
      | l :: ls => (c :: l) :: ls
      | [] => [[c]]

/-- Count of non-blank lines of the stripped text. -/
def nonBlankLines (text : String) : Nat :=
  ((splitNl (pyStrip text).data).filter (fun l => l.any (fun c => !isSpaceChar c))).length

/-- `_score_specificity` (analyzer.py). -/
def _score_specificity (text textLower : String) : DimensionScore :=
  let constraintHits := _count_keyword_hits textLower CONSTRAINT_KEYWORDS
  let s1 : ℚ × List String :=
    if 5 ≤ constraintHits then (qAdd 2 3, ["Strong constraints present"])
    else if 2 ≤ constraintHits then (qAdd 2 2, ["Some constraints present"])
    else if 1 ≤ constraintHits then (qAdd 2 1, ["Minimal constraints"])
    else (2, ["No constraints detected"])
  let s2 : ℚ × List String :=
    if _has_any_keyword textLower EXAMPLE_KEYWORDS then
      (qAdd s1.1 (mkRat 5 2), s1.2 ++ ["Includes examples"])
    else (s1.1, s1.2 ++ ["No examples provided"])
  let numbers := countNumericTokens text
  let s3 : ℚ × List String :=
    if 3 ≤ numbers then (qAdd s2.1 (mkRat 3 2), s2.2 ++ ["Multiple numeric details"])
    else if 1 ≤ numbers then (qAdd s2.1 (mkRat 3 4), s2.2)
    else s2
  let s4 : ℚ × List String :=
    if 5 ≤ nonBlankLines text then (qAdd s3.1 1, s3.2 ++ ["Well-structured multi-line prompt"])
    else s3
  { name := "Specificity",
    score := round1 (pyMax 1 (pyMin 10 s4.1)),
    details := String.intercalate "; " s4.2 }

/-- `_score_length` (analyzer.py). -/
def _score_length (text : String) : DimensionScore :=
  let wc := _count_words text
  let sd : ℚ × String :=
    if wc < 5 then (2, toString wc ++ " words -- too short to convey a meaningful task")
    else if wc < 10 then (4, toString wc ++ " words -- quite short, likely missing details")
    else if wc < 20 then (6, toString wc ++ " words -- on the short side")
    else if wc ≤ 300 then
      (qAdd 8 (pyMin 2 (qDiv (qSub (wc : ℚ) 20) 140)), toString wc ++ " words -- good length")
    else if wc ≤ 500 then (7, toString wc ++ " words -- on the long side, consider trimming")
    else (pyMax 3 (qSub 7 (qDiv (qSub (wc : ℚ) 500) 200)),
          toString wc ++ " words -- quite long, risk of losing focus")
  { name := "Length",
    score := round1 (pyMin 10 sd.1),
    details := sd.2 }

/-- The `found` / `evidence` computation of one iteration of the detector
loop in `_detect_anti_patterns` (analyzer.py): dispatch on the pattern id,
with the generic signal-then-keyword branch as the fallback.  Returns the
evidence when the pattern fires. -/
def detectCond (text textLower : String) (ap : AntiPattern) : Option String :=
  if ap.id = "missing_role" then
    if !_has_any_keyword textLower ROLE_KEYWORDS then
      some "No role or persona assignment found"
    else none
  else if ap.id = "missing_output_format" then
    if !_has_any_keyword textLower OUTPUT_FORMAT_KEYWORDS then
      some "No output format specification found"
    else none
  else if ap.id = "missing_context" then
    if !_has_any_keyword textLower CONTEXT_SIGNALS then
      some "No contextual background found"
    else none
  else if ap.id = "no_constraints" then
    if _count_keyword_hits textLower CONSTRAINT_KEYWORDS = 0 then
      some "No constraint or boundary keywords found"
    else none
  else if ap.id = "no_examples" then
    if !_has_any_keyword textLower EXAMPLE_KEYWORDS then
      some "No example or sample output found"
    else none
  else if ap.id = "multiple_requests" then
    if 3 ≤ _count_distinct_tasks text then
      some ("Detected ~" ++ toString (_count_distinct_tasks text) ++ " distinct tasks/requests")
    else none
  else
    match (ap.positive_signals.filterMap (fun p => wpSearch p text)).head? with
    | some m => some ("Matched: \"" ++ m ++ "\"")
    | none =>
      match ap.keyword_signals.find? (fun kw => strContains textLower kw) with
      | some kw => some ("Contains: \"" ++ kw ++ "\"")
      | none => none

/-- One iteration of the detector loop: when the pattern fires, the
detected entry referencing it is appended. -/
def detectOne (text textLower : String) (ap : AntiPattern) : Option DetectedAntiPattern :=
  (detectCond text textLower ap).map (fun ev => { pattern := ap, evidence := ev })

/-- `_detect_anti_patterns` (analyzer.py): one pass over `ALL_PATTERNS`
in catalog order, keeping the patterns that fire. -/
def _detect_anti_patterns (text textLower : String) : List DetectedAntiPattern :=
  ALL_PATTERNS.filterMap (detectOne text textLower)

/-- `severity_order.get(severity.value, 3)` of `_generate_suggestions`. -/
def severityRank (d : DetectedAntiPattern) : Nat :=
  if d.pattern.severity.value = "high" then 0
  else if d.pattern.severity.value = "medium" then 1
  else if d.pattern.severity.value = "low" then 2
  else 3

/-- Insertion step of the stable ascending sort by severity rank: the new
element goes after every element of strictly smaller rank and before the
first element of equal or greater rank, so earlier list elements keep
their relative order within equal ranks. -/
def insertBySev (x : DetectedAntiPattern) : List DetectedAntiPattern → List DetectedAntiPattern
  | [] => [x]
  | y :: ys => if severityRank y < severityRank x then y :: insertBySev x ys else x :: y :: ys

/-- The stable sort `sorted(anti_patterns, key=severity rank)` of
`_generate_suggestions`. -/
def sortBySeverity : List DetectedAntiPattern → List DetectedAntiPattern
  | [] => []
  | x :: xs => insertBySev x (sortBySeverity xs)

/-- The suggestion-collecting walk of `_generate_suggestions`: append the
pattern's suggestion unless its id is in `seen`. -/
def collectSugg (seen : List String) : List DetectedAntiPattern → List String
  | [] => []
  | d :: ds =>
    if d.pattern.id ∈ seen then collectSugg seen ds
    else d.pattern.suggestion :: collectSugg (d.pattern.id :: seen) ds

/-- First-occurrence deduplication by pattern id (the entries whose
suggestions the walk appends). -/
def dedupById (seen : List String) : List DetectedAntiPattern → List DetectedAntiPattern
  | [] => []
  | d :: ds =>
    if d.pattern.id ∈ seen then dedupById seen ds
    else d :: dedupById (d.pattern.id :: seen) ds

/-- The fixed encouragement message of `_generate_suggestions`. -/
def strongPromptMsg : String :=
  "This is already a strong prompt. Consider adding edge-case handling or examples for even better results."

/-- `_generate_suggestions` (analyzer.py). -/
def _generate_suggestions (dimensions : List DimensionScore)
    (anti_patterns : List DetectedAntiPattern) : List String :=
  let suggestions := collectSugg [] (sortBySeverity anti_patterns)
  let lowDims := dimensions.filter (fun d => d.score < 6)
  if lowDims = [] ∧ suggestions = [] then suggestions ++ [strongPromptMsg]
  else suggestions

/-- `analyze` (analyzer.py), the public entry point.  The function is
total (defined without any partiality), which models the source contract
that `analyze` never raises; the empty-input branch returns the fixed
degenerate result without invoking the detector. -/
def analyze (prompt : String) : AnalysisResult :=
  let text := pyStrip prompt
  if text = "" then
    { prompt := prompt,
      dimensions :=
        [{ name := "Clarity", score := 1, details := "Empty prompt" },
         { name := "Structure", score := 1, details := "Empty prompt" },
         { name := "Specificity", score := 1, details := "Empty prompt" },
         { name := "Length", score := 1, details := "0 words" }],
      suggestions := ["Provide a non-empty prompt to analyze."],
      word_count := 0,
      sentence_count := 0 }
  else
    let textLower := pyLower text
    let dimensions :=
      [_score_clarity text textLower,
       _score_structure text textLower,
       _score_specificity text textLower,
       _score_length text]
    let aps := _detect_anti_patterns text textLower
    { prompt := text,
      dimensions := dimensions,
      anti_patterns := aps,
      suggestions := _generate_suggestions dimensions aps,
      word_count := _count_words text,
      sentence_count := _count_sentences text }

/-! ## Rounding lemmas -/

lemma rndHalfEven_le (n : ℤ) (q : ℚ) (h : q ≤ (n : ℚ)) : rndHalfEven q ≤ n := by
  rw [rndHalfEven_spec]
  have hf : (⌊q⌋ : ℚ) ≤ q := Int.floor_le q
  split_ifs with h1 h2 h3
  · exact_mod_cast hf.trans h
  · have : (⌊q⌋ : ℚ) < (n : ℚ) := by linarith
    have : ⌊q⌋ < n := by exact_mod_cast this
    omega
  · have hr : q - (⌊q⌋ : ℚ) = 1 / 2 := le_antisymm (not_lt.mp h2) (not_lt.mp h1)
    have : (⌊q⌋ : ℚ) < (n : ℚ) := by linarith
    have : ⌊q⌋ < n := by exact_mod_cast this
    exact this.le
  · have hr : q - (⌊q⌋ : ℚ) = 1 / 2 := le_antisymm (not_lt.mp h2) (not_lt.mp h1)
    have : (⌊q⌋ : ℚ) < (n : ℚ) := by linarith
    have : ⌊q⌋ < n := by exact_mod_cast this
    omega

lemma le_rndHalfEven (n : ℤ) (q : ℚ) (h : (n : ℚ) ≤ q) : n ≤ rndHalfEven q := by
  rw [rndHalfEven_spec]
  have hf : q < (⌊q⌋ : ℚ) + 1 := Int.lt_floor_add_one q
  have hn1 : (n : ℚ) < (⌊q⌋ : ℚ) + 1 := lt_of_le_of_lt h hf
  have hn1' : n < ⌊q⌋ + 1 := by exact_mod_cast hn1
  split_ifs with h1 h2 h3
  · have : (n : ℚ) < (⌊q⌋ : ℚ) + 1 / 2 := by linarith
    have h2' : (2 * n : ℚ) < 2 * ⌊q⌋ + 1 := by linarith
    have : 2 * n < 2 * ⌊q⌋ + 1 := by exact_mod_cast h2'
    omega
  · omega
  · omega
  · have hr : q - (⌊q⌋ : ℚ) = 1 / 2 := le_antisymm (not_lt.mp h2) (not_lt.mp h1)
    have : (n : ℚ) ≤ (⌊q⌋ : ℚ) + 1 / 2 := by linarith
    have h2' : (2 * n : ℚ) ≤ 2 * ⌊q⌋ + 1 := by linarith
    have : 2 * n ≤ 2 * ⌊q⌋ + 1 := by exact_mod_cast h2'
    omega

lemma round1_bounds (a b : ℤ) (q : ℚ) (h1 : (a : ℚ) ≤ q) (h2 : q ≤ (b : ℚ)) :
    (a : ℚ) ≤ round1 q ∧ round1 q ≤ (b : ℚ) := by
  have hl : (10 * a : ℤ) ≤ rndHalfEven (10 * q) := by
    apply le_rndHalfEven
    push_cast
    linarith
  have hu : rndHalfEven (10 * q) ≤ (10 * b : ℤ) := by
    apply rndHalfEven_le
    push_cast
    linarith
  have hl' : ((10 * a : ℤ) : ℚ) ≤ (rndHalfEven (10 * q) : ℚ) := by exact_mod_cast hl
  have hu' : ((rndHalfEven (10 * q)) : ℚ) ≤ ((10 * b : ℤ) : ℚ) := by exact_mod_cast hu
  rw [round1_spec]
  constructor
  · rw [le_div_iff₀ (by norm_num : (0 : ℚ) < 10)]
    push_cast at hl' ⊢
    linarith
  · rw [div_le_iff₀ (by norm_num : (0 : ℚ) < 10)]
    push_cast at hu' ⊢
    linarith

lemma round1_clamp_bounds (x : ℚ) :
    1 ≤ round1 (max 1 (min 10 x)) ∧ round1 (max 1 (min 10 x)) ≤ 10 := by
  have h := round1_bounds 1 10 (max 1 (min 10 x))
    (by push_cast; exact le_max_left _ _)
    (by push_cast; exact max_le (by norm_num) (min_le_left _ _))
  exact_mod_cast h

/-! ## Unfolding helpers for `analyze` -/

/-- The fixed degenerate result of the empty-input branch. -/
def emptyResult (prompt : String) : AnalysisResult where
  prompt := prompt
  dimensions :=
    [{ name := "Clarity", score := 1, details := "Empty prompt" },
     { name := "Structure", score := 1, details := "Empty prompt" },
     { name := "Specificity", score := 1, details := "Empty prompt" },
     { name := "Length", score := 1, details := "0 words" }]
  suggestions := ["Provide a non-empty prompt to analyze."]
  word_count := 0
  sentence_count := 0

lemma analyze_of_empty (s : String) (h : pyStrip s = "") : analyze s = emptyResult s := by
  unfold analyze emptyResult
  rw [h]
  rfl

lemma analyze_of_nonempty (s : String) (h : pyStrip s ≠ "") :
    analyze s =
      { prompt := pyStrip s,
        dimensions :=
          [_score_clarity (pyStrip s) (pyLower (pyStrip s)),
           _score_structure (pyStrip s) (pyLower (pyStrip s)),
           _score_specificity (pyStrip s) (pyLower (pyStrip s)),
           _score_length (pyStrip s)],
        anti_patterns := _detect_anti_patterns (pyStrip s) (pyLower (pyStrip s)),
        suggestions :=
          _generate_suggestions
            [_score_clarity (pyStrip s) (pyLower (pyStrip s)),
             _score_structure (pyStrip s) (pyLower (pyStrip s)),
             _score_specificity (pyStrip s) (pyLower (pyStrip s)),
             _score_length (pyStrip s)]
            (_detect_anti_patterns (pyStrip s) (pyLower (pyStrip s))),
        word_count := _count_words (pyStrip s),
        sentence_count := _count_sentences (pyStrip s) } := by
  unfold analyze
  rw [if_neg h]

/-! ## Claims C1, C3, C5 -/

/-- C1: for every input string, including the empty string, `analyze`
terminates normally and returns an `AnalysisResult`.  The embedding of
`analyze` is a total Lean function (no partiality anywhere in its call
graph), which models the source's never-raises contract; the theorem
exhibits the returned result and its well-formedness (four dimension
scores) on every path. -/
theorem claim_C1_analyze_total (s : String) :
    ∃ r : AnalysisResult, analyze s = r ∧ r.dimensions.length = 4 := by
  refine ⟨analyze s, rfl, ?_⟩
  by_cases h : pyStrip s = ""
  · rw [analyze_of_empty s h]
    rfl
  · rw [analyze_of_nonempty s h]
    rfl

/-- C3: for every input whose trimmed text is empty, `analyze` returns
the fixed degenerate result: all four dimension scores 1.0, word count 0,
sentence count 0, no anti-patterns (the detector is not invoked on this
path, modelled by the empty anti-pattern list of the returned record),
and exactly the one fixed suggestion. -/
theorem claim_C3_empty_input (s : String) (h : pyStrip s = "") :
    (analyze s).dimensions.map (fun d => d.score) = [1, 1, 1, 1] ∧
    (analyze s).word_count = 0 ∧
    (analyze s).sentence_count = 0 ∧
    (analyze s).anti_patterns = [] ∧
    (analyze s).suggestions = ["Provide a non-empty prompt to analyze."] := by
  rw [analyze_of_empty s h]
  exact ⟨rfl, rfl, rfl, rfl, rfl⟩

/-- Witness for C3 at the two concrete degenerate inputs of the claim. -/
theorem claim_C3_empty_input_witness :
    (pyStrip "" = "" ∧
      ((analyze "").dimensions.map (fun d => d.score) = [1, 1, 1, 1] ∧
       (analyze "").word_count = 0 ∧
       (analyze "").sentence_count = 0 ∧
       (analyze "").anti_patterns = [] ∧
       (analyze "").suggestions = ["Provide a non-empty prompt to analyze."])) ∧
    (pyStrip "   " = "" ∧
      ((analyze "   ").dimensions.map (fun d => d.score) = [1, 1, 1, 1] ∧
       (analyze "   ").word_count = 0 ∧
       (analyze "   ").sentence_count = 0 ∧
       (analyze "   ").anti_patterns = [] ∧
       (analyze "   ").suggestions = ["Provide a non-empty prompt to analyze."])) :=
  ⟨⟨by decide, claim_C3_empty_input "" (by decide)⟩,
   ⟨by decide, claim_C3_empty_input "   " (by decide)⟩⟩

/-- Counterexample to C5 as stated: the claim says the `prompt` field
always equals the original input text, but on the non-empty path the
source stores the trimmed text (`prompt=text` at analyzer.py:511), so an
input with surrounding whitespace comes back trimmed. -/
theorem claim_C5_counterexample :
    (analyze " Hello there ").prompt ≠ " Hello there " := by decide

/-- C5 (amended): the `prompt` field of the result equals the trimmed
input text when the trimmed text is non-empty, and the original input
string on the empty-input path. -/
theorem claim_C5_prompt_field (s : String) :
    (analyze s).prompt = if pyStrip s = "" then s else pyStrip s := by
  by_cases h : pyStrip s = ""
  · rw [analyze_of_empty s h, if_pos h]
    rfl
  · rw [analyze_of_nonempty s h, if_neg h]

/-! ## Score bounds (claims C2 and C6) -/

lemma round1_mem_1_10 (x : ℚ) (h1 : 1 ≤ x) (h2 : x ≤ 10) :
    1 ≤ round1 x ∧ round1 x ≤ 10 := by
  have h := round1_bounds 1 10 x (by exact_mod_cast h1) (by exact_mod_cast h2)
  exact_mod_cast h

lemma round1_min10_mem (x : ℚ) (hx : 1 ≤ x) :
    1 ≤ round1 (min 10 x) ∧ round1 (min 10 x) ≤ 10 :=
  round1_mem_1_10 _ (le_min (by norm_num) hx) (min_le_left _ _)

lemma score_clarity_bounds (t tl : String) :
    1 ≤ (_score_clarity t tl).score ∧ (_score_clarity t tl).score ≤ 10 := by
  dsimp only [_score_clarity]
  simp only [pyMax_eq, pyMin_eq]
  exact round1_clamp_bounds _

lemma score_structure_bounds (t tl : String) :
    1 ≤ (_score_structure t tl).score ∧ (_score_structure t tl).score ≤ 10 := by
  dsimp only [_score_structure]
  simp only [pyMax_eq, pyMin_eq]
  exact round1_clamp_bounds _

lemma score_specificity_bounds (t tl : String) :
    1 ≤ (_score_specificity t tl).score ∧ (_score_specificity t tl).score ≤ 10 := by
  dsimp only [_score_specificity]
  simp only [pyMax_eq, pyMin_eq]
  exact round1_clamp_bounds _

lemma score_length_bounds (t : String) :
    1 ≤ (_score_length t).score ∧ (_score_length t).score ≤ 10 := by
  dsimp only [_score_length]
  simp only [pyMax_eq, pyMin_eq, qAdd_eq, qSub_eq, qDiv_eq]
  split_ifs with h1 h2 h3 h4 h5
  · exact round1_min10_mem _ (by norm_num)
  · exact round1_min10_mem _ (by norm_num)
  · exact round1_min10_mem _ (by norm_num)
  · have h20 : (20 : ℚ) ≤ (_count_words t : ℚ) := by exact_mod_cast not_lt.mp h3
    have hm : 0 ≤ min 2 (((_count_words t : ℚ) - 20) / 140) :=
      le_min (by norm_num) (div_nonneg (by linarith) (by norm_num))
    exact round1_min10_mem _ (by linarith)
  · exact round1_min10_mem _ (by norm_num)
  · exact round1_min10_mem _ (le_trans (by norm_num) (le_max_left 3 _))

/-- The weighted-average computation of `overall_score` on a dimension
list holding exactly the four standard dimensions: the total weight is 1
and the result is the rounded weighted sum. -/
lemma overall_of_four (r : AnalysisResult) (c st sp l : DimensionScore)
    (hdims : r.dimensions = [c, st, sp, l])
    (hc : c.name = "Clarity") (hst : st.name = "Structure")
    (hsp : sp.name = "Specificity") (hl : l.name = "Length") :
    r.overall_score =
      round1 (3 / 10 * c.score + 1 / 4 * st.score + 1 / 4 * sp.score + 1 / 5 * l.score) := by
  unfold AnalysisResult.overall_score
  rw [hdims]
  have w1 : weightOf "Clarity" = 3 / 10 := by
    rw [show weightOf "Clarity" = mkRat 3 10 from rfl, Rat.mkRat_eq_div]
    norm_num
  have w2 : weightOf "Structure" = 1 / 4 := by
    rw [show weightOf "Structure" = mkRat 1 4 from rfl, Rat.mkRat_eq_div]
    norm_num
  have w3 : weightOf "Specificity" = 1 / 4 := by
    rw [show weightOf "Specificity" = mkRat 1 4 from rfl, Rat.mkRat_eq_div]
    norm_num
  have w4 : weightOf "Length" = 1 / 5 := by
    rw [show weightOf "Length" = mkRat 1 5 from rfl, Rat.mkRat_eq_div]
    norm_num
  rw [if_neg (by simp)]
  simp only [List.foldl, hc, hst, hsp, hl, w1, w2, w3, w4, qAdd_eq, qMul_eq, qDiv_eq]
  rw [if_neg (by norm_num)]
  congr 1
  ring

/-- C2: for every prompt whose trimmed text is non-empty, the result has
exactly four dimension scores, each in the closed interval [1, 10], and
the derived overall score also lies in [1, 10]. -/
theorem claim_C2_scores_bounded (s : String) (h : pyStrip s ≠ "") :
    (analyze s).dimensions.length = 4 ∧
    (∀ d ∈ (analyze s).dimensions, 1 ≤ d.score ∧ d.score ≤ 10) ∧
    1 ≤ (analyze s).overall_score ∧ (analyze s).overall_score ≤ 10 := by
  have hdims : (analyze s).dimensions =
      [_score_clarity (pyStrip s) (pyLower (pyStrip s)),
       _score_structure (pyStrip s) (pyLower (pyStrip s)),
       _score_specificity (pyStrip s) (pyLower (pyStrip s)),
       _score_length (pyStrip s)] := by
    rw [analyze_of_nonempty s h]
  refine ⟨by rw [hdims]; rfl, ?_, ?_⟩
  · intro d hd
    rw [hdims] at hd
    simp only [List.mem_cons, List.not_mem_nil, or_false] at hd
    rcases hd with rfl | rfl | rfl | rfl
    · exact score_clarity_bounds _ _
    · exact score_structure_bounds _ _
    · exact score_specificity_bounds _ _
    · exact score_length_bounds _
  · have ho := overall_of_four (analyze s)
      (_score_clarity (pyStrip s) (pyLower (pyStrip s)))
      (_score_structure (pyStrip s) (pyLower (pyStrip s)))
      (_score_specificity (pyStrip s) (pyLower (pyStrip s)))
      (_score_length (pyStrip s)) hdims rfl rfl rfl rfl
    rw [ho]
    have b1 := score_clarity_bounds (pyStrip s) (pyLower (pyStrip s))
    have b2 := score_structure_bounds (pyStrip s) (pyLower (pyStrip s))
    have b3 := score_specificity_bounds (pyStrip s) (pyLower (pyStrip s))
    have b4 := score_length_bounds (pyStrip s)
    exact round1_mem_1_10 _
      (by obtain ⟨x1, _⟩ := b1; obtain ⟨x2, _⟩ := b2
          obtain ⟨x3, _⟩ := b3; obtain ⟨x4, _⟩ := b4; linarith)
      (by obtain ⟨_, y1⟩ := b1; obtain ⟨_, y2⟩ := b2
          obtain ⟨_, y3⟩ := b3; obtain ⟨_, y4⟩ := b4; linarith)

/-- Witness for C2 at a concrete non-empty input. -/
theorem claim_C2_scores_bounded_witness :
    pyStrip "hello" ≠ "" ∧
    ((analyze "hello").dimensions.length = 4 ∧
     (∀ d ∈ (analyze "hello").dimensions, 1 ≤ d.score ∧ d.score ≤ 10) ∧
     1 ≤ (analyze "hello").overall_score ∧ (analyze "hello").overall_score ≤ 10) :=
  ⟨by decide, claim_C2_scores_bounded "hello" (by decide)⟩

/-- C6: on a result holding the four standard dimensions in order, the
overall score is the weighted mean with weights 0.30 / 0.25 / 0.25 / 0.20
rounded to one decimal; on an empty dimension list it is 0.0 with label
"Poor". -/
theorem claim_C6_overall_score (r : AnalysisResult) :
    (∀ c st sp l : DimensionScore, r.dimensions = [c, st, sp, l] →
      c.name = "Clarity" → st.name = "Structure" →
      sp.name = "Specificity" → l.name = "Length" →
      r.overall_score =
        round1 (3 / 10 * c.score + 1 / 4 * st.score + 1 / 4 * sp.score + 1 / 5 * l.score)) ∧
    (r.dimensions = [] → r.overall_score = 0 ∧ r.overall_label = "Poor") := by
  constructor
  · intro c st sp l hdims hc hst hsp hl
    exact overall_of_four r c st sp l hdims hc hst hsp hl
  · intro hnil
    have h0 : r.overall_score = 0 := by
      unfold AnalysisResult.overall_score
      rw [hnil]
      rfl
    refine ⟨h0, ?_⟩
    unfold AnalysisResult.overall_label
    rw [h0]
    norm_num

/-- Witness for C6: a directly constructed result with the four standard
dimensions, and one with no dimensions. -/
theorem claim_C6_overall_score_witness :
    (({ prompt := "w",
        dimensions :=
          [{ name := "Clarity", score := 5 }, { name := "Structure", score := 6 },
           { name := "Specificity", score := 7 }, { name := "Length", score := 8 }] }
        : AnalysisResult).overall_score =
      round1 (3 / 10 * 5 + 1 / 4 * 6 + 1 / 4 * 7 + 1 / 5 * 8)) ∧
    (({ prompt := "w" } : AnalysisResult).overall_score = 0 ∧
     ({ prompt := "w" } : AnalysisResult).overall_label = "Poor") :=
  ⟨(claim_C6_overall_score _).1
      { name := "Clarity", score := 5 } { name := "Structure", score := 6 }
      { name := "Specificity", score := 7 } { name := "Length", score := 8 }
      rfl rfl rfl rfl rfl,
   (claim_C6_overall_score _).2 rfl⟩

/-! ## Claim C7: the length scorer -/

lemma round1_int (z : ℤ) : round1 (z : ℚ) = z := by
  rw [round1_spec]
  have h1 : (10 : ℚ) * (z : ℚ) = ((10 * z : ℤ) : ℚ) := by push_cast; ring
  rw [h1, rndHalfEven_spec, Int.floor_intCast]
  rw [if_pos (by norm_num)]
  push_cast
  field_simp

lemma round1_ofNat (n : ℕ) : round1 (n : ℚ) = n := by
  have h := round1_int (n : ℤ)
  push_cast at h
  exact h

/-- The character list `a a ... a` with `n` words. -/
def aWords : Nat → List Char
  | 0 => []
  | 1 => ['a']
  | n + 2 => 'a' :: ' ' :: aWords (n + 1)

lemma wordsAux_aWords (n : Nat) : wordsAux false (aWords (n + 1)) = n + 1 := by
  induction n with
  | zero => decide
  | succ m ih =>
    show wordsAux false ('a' :: ' ' :: aWords (m + 1)) = m + 2
    rw [show wordsAux false ('a' :: ' ' :: aWords (m + 1)) =
          1 + wordsAux false (aWords (m + 1)) from rfl, ih]
    omega

lemma aWords_reverse_head (n : Nat) : ∃ l, (aWords (n + 1)).reverse = 'a' :: l := by
  induction n with
  | zero => exact ⟨[], rfl⟩
  | succ m ih =>
    obtain ⟨l, hl⟩ := ih
    refine ⟨l ++ [' ', 'a'], ?_⟩
    show ('a' :: ' ' :: aWords (m + 1)).reverse = 'a' :: (l ++ [' ', 'a'])
    rw [List.reverse_cons, List.reverse_cons, hl]
    simp

lemma pyStrip_aWords (n : Nat) : pyStrip ⟨aWords (n + 1)⟩ = ⟨aWords (n + 1)⟩ := by
  unfold pyStrip
  obtain ⟨l, hl⟩ := aWords_reverse_head n
  have hhead : aWords (n + 1) = 'a' :: (aWords (n + 1)).tail := by
    cases n <;> rfl
  congr 1
  conv_lhs => rw [hhead]
  rw [List.dropWhile_cons_of_neg (by decide), ← hhead, hl,
      List.dropWhile_cons_of_neg (by decide), ← hl]
  simp

/-- The 501-word text `a a ... a` (the shortest text in the over-500
branch of the length scorer). -/
def fiveHundredOneWords : String := ⟨aWords 501⟩

lemma count_words_501 : _count_words fiveHundredOneWords = 501 :=
  wordsAux_aWords 500

/-- Counterexample to C7 as stated: for word counts above 500 the claim
gives the score as `max(3.0, 7.0 - (w - 500)/200)` with no rounding, but
the source rounds every branch to one decimal (analyzer.py:364), so at
501 words the code returns 7.0 while the claimed formula gives 6.995. -/
theorem claim_C7_counterexample :
    pyStrip fiveHundredOneWords ≠ "" ∧
    _count_words fiveHundredOneWords = 501 ∧
    (_score_length fiveHundredOneWords).score = 7 ∧
    max 3 (7 - (((501 : ℚ)) - 500) / 200) ≠ 7 := by
  refine ⟨?_, count_words_501, ?_, ?_⟩
  · rw [show fiveHundredOneWords = ⟨aWords 501⟩ from rfl, pyStrip_aWords 500]
    intro hcon
    have : aWords 501 = [] := congrArg String.data hcon
    rw [show aWords 501 = 'a' :: ' ' :: aWords 500 from rfl] at this
    cases this
  · dsimp only [_score_length]
    rw [count_words_501]
    simp only [pyMax_eq, pyMin_eq, qAdd_eq, qSub_eq, qDiv_eq]
    rw [if_neg (by norm_num), if_neg (by norm_num), if_neg (by norm_num),
        if_neg (by norm_num), if_neg (by norm_num)]
    have hv : ((501 : ℕ) : ℚ) = 501 := by norm_num
    rw [hv]
    rw [max_eq_right (by norm_num : (3 : ℚ) ≤ 7 - (501 - 500) / 200)]
    rw [min_eq_right (by norm_num : (7 : ℚ) - (501 - 500) / 200 ≤ 10)]
    have hval : (7 : ℚ) - (501 - 500) / 200 = 1399 / 200 := by norm_num
    rw [hval, round1_spec, rndHalfEven_spec]
    have h10 : (10 : ℚ) * (1399 / 200) = (1399 : ℤ) / (20 : ℕ) := by push_cast; ring
    rw [h10, Rat.floor_intCast_div_natCast]
    norm_num
  · rw [max_eq_right (by norm_num : (3 : ℚ) ≤ 7 - (501 - 500) / 200)]
    norm_num

/-- C7 (amended): the length score follows the claimed word-count bands,
with the final value rounded to one decimal in every band (the rounding
is the identity on the constant bands); each branch's details string
embeds the literal word count. -/
theorem claim_C7_length_score (text : String) (_h : pyStrip text ≠ "") :
    ((_count_words text < 5 → (_score_length text).score = 2) ∧
     (5 ≤ _count_words text → _count_words text < 10 → (_score_length text).score = 4) ∧
     (10 ≤ _count_words text → _count_words text < 20 → (_score_length text).score = 6) ∧
     (20 ≤ _count_words text → _count_words text ≤ 300 →
       (_score_length text).score =
         round1 (8 + min 2 (((_count_words text : ℚ) - 20) / 140))) ∧
     (301 ≤ _count_words text → _count_words text ≤ 500 → (_score_length text).score = 7) ∧
     (500 < _count_words text →
       (_score_length text).score =
         round1 (max 3 (7 - ((_count_words text : ℚ) - 500) / 200)))) ∧
    (∃ a b : String, (_score_length text).details = a ++ toString (_count_words text) ++ b) := by
  dsimp only [_score_length]
  simp only [pyMax_eq, pyMin_eq, qAdd_eq, qSub_eq, qDiv_eq]
  constructor
  · refine ⟨?_, ?_, ?_, ?_, ?_, ?_⟩
    · intro h1
      rw [if_pos h1]
      rw [min_eq_right (by norm_num : (2 : ℚ) ≤ 10)]
      have h := round1_ofNat 2
      push_cast at h
      exact h
    · intro h1 h2
      rw [if_neg (by omega), if_pos h2]
      rw [min_eq_right (by norm_num : (4 : ℚ) ≤ 10)]
      have h := round1_ofNat 4
      push_cast at h
      exact h
    · intro h1 h2
      rw [if_neg (by omega), if_neg (by omega), if_pos h2]
      rw [min_eq_right (by norm_num : (6 : ℚ) ≤ 10)]
      have h := round1_ofNat 6
      push_cast at h
      exact h
    · intro h1 h2
      rw [if_neg (by omega), if_neg (by omega), if_neg (by omega), if_pos h2]
      have hm : min 2 (((_count_words text : ℚ) - 20) / 140) ≤ 2 := min_le_left _ _
      rw [min_eq_right (by linarith : (8 : ℚ) + min 2 (((_count_words text : ℚ) - 20) / 140) ≤ 10)]
    · intro h1 h2
      rw [if_neg (by omega), if_neg (by omega), if_neg (by omega), if_neg (by omega),
          if_pos h2]
      rw [min_eq_right (by norm_num : (7 : ℚ) ≤ 10)]
      have h := round1_ofNat 7
      push_cast at h
      exact h
    · intro h1
      rw [if_neg (by omega), if_neg (by omega), if_neg (by omega), if_neg (by omega),
          if_neg (by omega)]
      have h500 : (500 : ℚ) ≤ (_count_words text : ℚ) := by exact_mod_cast h1.le
      have hy : (0 : ℚ) ≤ ((_count_words text : ℚ) - 500) / 200 :=
        div_nonneg (by linarith) (by norm_num)
      have hmax : max 3 (7 - ((_count_words text : ℚ) - 500) / 200) ≤ 10 :=
        max_le (by norm_num) (by linarith)
      rw [min_eq_right hmax]
  · split_ifs
    · exact ⟨"", " words -- too short to convey a meaningful task", rfl⟩
    · exact ⟨"", " words -- quite short, likely missing details", rfl⟩
    · exact ⟨"", " words -- on the short side", rfl⟩
    · exact ⟨"", " words -- good length", rfl⟩
    · exact ⟨"", " words -- on the long side, consider trimming", rfl⟩
    · exact ⟨"", " words -- quite long, risk of losing focus", rfl⟩

/-- Witness for C7 (amended) at a concrete three-word input. -/
theorem claim_C7_length_score_witness :
    pyStrip "fix the bug" ≠ "" ∧
    (((_count_words "fix the bug" < 5 → (_score_length "fix the bug").score = 2) ∧
      (5 ≤ _count_words "fix the bug" → _count_words "fix the bug" < 10 →
        (_score_length "fix the bug").score = 4) ∧
      (10 ≤ _count_words "fix the bug" → _count_words "fix the bug" < 20 →
        (_score_length "fix the bug").score = 6) ∧
      (20 ≤ _count_words "fix the bug" → _count_words "fix the bug" ≤ 300 →
        (_score_length "fix the bug").score =
          round1 (8 + min 2 (((_count_words "fix the bug" : ℚ) - 20) / 140))) ∧
      (301 ≤ _count_words "fix the bug" → _count_words "fix the bug" ≤ 500 →
        (_score_length "fix the bug").score = 7) ∧
      (500 < _count_words "fix the bug" →
        (_score_length "fix the bug").score =
          round1 (max 3 (7 - ((_count_words "fix the bug" : ℚ) - 500) / 200)))) ∧
     (∃ a b : String,
       (_score_length "fix the bug").details = a ++ toString (_count_words "fix the bug") ++ b)) :=
  ⟨by decide, claim_C7_length_score "fix the bug" (by decide)⟩

/-! ## Claim C8: the multiple_requests detector branch -/

lemma detectOne_some (t tl : String) (ap : AntiPattern) (d : DetectedAntiPattern)
    (h : detectOne t tl ap = some d) :
    d.pattern = ap ∧ detectCond t tl ap = some d.evidence := by
  unfold detectOne at h
  obtain ⟨ev, hev, hd⟩ := Option.map_eq_some'.mp h
  refine ⟨?_, ?_⟩
  · rw [← hd]
  · rw [← hd, hev]

lemma mem_detect_iff (t tl i : String) :
    (∃ d ∈ _detect_anti_patterns t tl, d.pattern.id = i) ↔
      ∃ ap ∈ ALL_PATTERNS, ap.id = i ∧ (detectCond t tl ap).isSome := by
  unfold _detect_anti_patterns
  constructor
  · rintro ⟨d, hd, hid⟩
    obtain ⟨ap, hap, hone⟩ := List.mem_filterMap.mp hd
    obtain ⟨hpat, hev⟩ := detectOne_some _ _ _ _ hone
    refine ⟨ap, hap, by rw [← hpat]; exact hid, by rw [hev]; rfl⟩
  · rintro ⟨ap, hap, hid, hsome⟩
    obtain ⟨ev, hev⟩ := Option.isSome_iff_exists.mp hsome
    refine ⟨⟨ap, ev⟩, ?_, hid⟩
    exact List.mem_filterMap.mpr ⟨ap, hap, by unfold detectOne; rw [hev]; rfl⟩

lemma all_patterns_id_mr :
    ∀ ap ∈ ALL_PATTERNS, ap.id = "multiple_requests" → ap = MULTIPLE_REQUESTS := by decide

lemma detectCond_mr (t tl : String) :
    detectCond t tl MULTIPLE_REQUESTS =
      if 3 ≤ _count_distinct_tasks t then
        some ("Detected ~" ++ toString (_count_distinct_tasks t) ++ " distinct tasks/requests")
      else none := rfl

/-- C8: for every non-empty trimmed input, the `multiple_requests`
anti-pattern is detected exactly when the distinct-task estimate --
clause-starting task-verb matches plus the literal count of question
marks -- is at least 3, and the evidence string of every such detection
embeds that count. -/
theorem claim_C8_multiple_requests (s : String) (h : pyStrip s ≠ "") :
    ((∃ d ∈ (analyze s).anti_patterns, d.pattern.id = "multiple_requests") ↔
      3 ≤ taskStarterCount (pyStrip s) + questionCount (pyStrip s)) ∧
    (∀ d ∈ (analyze s).anti_patterns, d.pattern.id = "multiple_requests" →
      d.evidence =
        "Detected ~" ++ toString (taskStarterCount (pyStrip s) + questionCount (pyStrip s)) ++
          " distinct tasks/requests") := by
  have haps : (analyze s).anti_patterns =
      _detect_anti_patterns (pyStrip s) (pyLower (pyStrip s)) := by
    rw [analyze_of_nonempty s h]
  have hcount : _count_distinct_tasks (pyStrip s) =
      taskStarterCount (pyStrip s) + questionCount (pyStrip s) := rfl
  constructor
  · rw [haps, mem_detect_iff]
    constructor
    · rintro ⟨ap, hap, hid, hsome⟩
      have hmr := all_patterns_id_mr ap hap hid
      subst hmr
      rw [detectCond_mr] at hsome
      by_cases hge : 3 ≤ _count_distinct_tasks (pyStrip s)
      · rwa [hcount] at hge
      · rw [if_neg hge] at hsome
        simp at hsome
    · intro h3
      refine ⟨MULTIPLE_REQUESTS, ?_, rfl, ?_⟩
      · unfold ALL_PATTERNS
        simp
      · rw [detectCond_mr, if_pos (by rwa [hcount])]
        rfl
  · intro d hd hid
    rw [haps] at hd
    obtain ⟨ap, hap, hone⟩ := List.mem_filterMap.mp hd
    obtain ⟨hpat, hev⟩ := detectOne_some _ _ _ _ hone
    have hmr := all_patterns_id_mr ap hap (by rw [← hpat]; exact hid)
    subst hmr
    rw [detectCond_mr] at hev
    by_cases hge : 3 ≤ _count_distinct_tasks (pyStrip s)
    · rw [if_pos hge] at hev
      rw [← hcount]
      exact (Option.some_inj.mp hev).symm
    · rw [if_neg hge] at hev
      cases hev

/-- Witness for C8 at a concrete three-task prompt. -/
theorem claim_C8_multiple_requests_witness :
    pyStrip "Write a poem. Also fix my code. And review it." ≠ "" ∧
    (((∃ d ∈ (analyze "Write a poem. Also fix my code. And review it.").anti_patterns,
        d.pattern.id = "multiple_requests") ↔
      3 ≤ taskStarterCount (pyStrip "Write a poem. Also fix my code. And review it.") +
          questionCount (pyStrip "Write a poem. Also fix my code. And review it.")) ∧
     (∀ d ∈ (analyze "Write a poem. Also fix my code. And review it.").anti_patterns,
        d.pattern.id = "multiple_requests" →
        d.evidence =
          "Detected ~" ++
            toString
              (taskStarterCount (pyStrip "Write a poem. Also fix my code. And review it.") +
               questionCount (pyStrip "Write a poem. Also fix my code. And review it.")) ++
            " distinct tasks/requests")) :=
  ⟨by decide, claim_C8_multiple_requests "Write a poem. Also fix my code. And review it." (by decide)⟩

/-! ## Claim C9: the suggestion composer -/

lemma mem_insertBySev (x z : DetectedAntiPattern) (l : List DetectedAntiPattern) :
    z ∈ insertBySev x l ↔ z = x ∨ z ∈ l := by
  induction l with
  | nil => simp [insertBySev]
  | cons y ys ih =>
    simp only [insertBySev]
    split_ifs with hc
    · rw [List.mem_cons, ih, List.mem_cons]
      tauto
    · rw [List.mem_cons, List.mem_cons]

lemma sorted_insertBySev (x : DetectedAntiPattern) (l : List DetectedAntiPattern)
    (hl : l.Pairwise (fun a b => severityRank a ≤ severityRank b)) :
    (insertBySev x l).Pairwise (fun a b => severityRank a ≤ severityRank b) := by
  induction l with
  | nil => simp [insertBySev]
  | cons y ys ih =>
    rw [List.pairwise_cons] at hl
    obtain ⟨hy, hys⟩ := hl
    simp only [insertBySev]
    split_ifs with hc
    · rw [List.pairwise_cons]
      refine ⟨?_, ih hys⟩
      intro z hz
      rcases (mem_insertBySev x z ys).mp hz with rfl | hzys
      · exact hc.le
      · exact hy z hzys
    · rw [List.pairwise_cons]
      refine ⟨?_, List.pairwise_cons.mpr ⟨hy, hys⟩⟩
      intro z hz
      rcases List.mem_cons.mp hz with rfl | hzys
      · exact not_lt.mp hc
      · exact le_trans (not_lt.mp hc) (hy z hzys)

lemma sorted_sortBySeverity (l : List DetectedAntiPattern) :
    (sortBySeverity l).Pairwise (fun a b => severityRank a ≤ severityRank b) := by
  induction l with
  | nil => simp [sortBySeverity]
  | cons x xs ih => exact sorted_insertBySev x _ ih

lemma filter_sev_cons_pos (n : Nat) (a : DetectedAntiPattern) (l : List DetectedAntiPattern)
    (h : severityRank a = n) :
    (a :: l).filter (fun d => severityRank d == n) =
      a :: l.filter (fun d => severityRank d == n) :=
  List.filter_cons_of_pos (by simp [h])

lemma filter_sev_cons_neg (n : Nat) (a : DetectedAntiPattern) (l : List DetectedAntiPattern)
    (h : ¬severityRank a = n) :
    (a :: l).filter (fun d => severityRank d == n) =
      l.filter (fun d => severityRank d == n) :=
  List.filter_cons_of_neg (by simp [h])

lemma filter_insertBySev (x : DetectedAntiPattern) (l : List DetectedAntiPattern) (n : Nat) :
    (insertBySev x l).filter (fun d => severityRank d == n) =
      (x :: l).filter (fun d => severityRank d == n) := by
  induction l with
  | nil => rfl
  | cons y ys ih =>
    simp only [insertBySev]
    split_ifs with hc
    · by_cases hy : severityRank y = n
      · by_cases hx : severityRank x = n
        · exfalso
          omega
        · rw [filter_sev_cons_pos n y _ hy, ih, filter_sev_cons_neg n x _ hx,
              filter_sev_cons_neg n x _ hx, filter_sev_cons_pos n y _ hy]
      · rw [filter_sev_cons_neg n y _ hy, ih]
        by_cases hx : severityRank x = n
        · rw [filter_sev_cons_pos n x _ hx, filter_sev_cons_pos n x _ hx,
              filter_sev_cons_neg n y _ hy]
        · rw [filter_sev_cons_neg n x _ hx, filter_sev_cons_neg n x _ hx,
              filter_sev_cons_neg n y _ hy]
    · rfl

lemma filter_sortBySeverity (l : List DetectedAntiPattern) (n : Nat) :
    (sortBySeverity l).filter (fun d => severityRank d == n) =
      l.filter (fun d => severityRank d == n) := by
  induction l with
  | nil => rfl
  | cons x xs ih =>
    show (insertBySev x (sortBySeverity xs)).filter _ = _
    rw [filter_insertBySev]
    simp only [List.filter_cons, ih]

lemma length_insertBySev (x : DetectedAntiPattern) (l : List DetectedAntiPattern) :
    (insertBySev x l).length = l.length + 1 := by
  induction l with
  | nil => rfl
  | cons y ys ih =>
    simp only [insertBySev]
    split_ifs with hc
    · simp [ih]
    · simp

lemma length_sortBySeverity (l : List DetectedAntiPattern) :
    (sortBySeverity l).length = l.length := by
  induction l with
  | nil => rfl
  | cons x xs ih =>
    show (insertBySev x (sortBySeverity xs)).length = _
    rw [length_insertBySev, ih]
    rfl

lemma collectSugg_eq_dedup (seen : List String) (l : List DetectedAntiPattern) :
    collectSugg seen l = (dedupById seen l).map (fun d => d.pattern.suggestion) := by
  induction l generalizing seen with
  | nil => rfl
  | cons d ds ih =>
    simp only [collectSugg, dedupById]
    split_ifs with hmem
    · exact ih seen
    · rw [List.map_cons, ih]

lemma dedup_length_le (seen : List String) (l : List DetectedAntiPattern) :
    (dedupById seen l).length ≤ l.length := by
  induction l generalizing seen with
  | nil => simp [dedupById]
  | cons d ds ih =>
    simp only [dedupById]
    split_ifs with hmem
    · exact le_trans (ih seen) (by simp)
    · simpa using ih (d.pattern.id :: seen)

lemma dedup_nodup (seen : List String) (l : List DetectedAntiPattern) :
    ((dedupById seen l).map (fun d => d.pattern.id)).Nodup ∧
    ∀ i ∈ (dedupById seen l).map (fun d => d.pattern.id), i ∉ seen := by
  induction l generalizing seen with
  | nil => simp [dedupById]
  | cons d ds ih =>
    simp only [dedupById]
    split_ifs with hmem
    · exact ih seen
    · obtain ⟨hnodup, hnotin⟩ := ih (d.pattern.id :: seen)
      constructor
      · rw [List.map_cons, List.nodup_cons]
        exact ⟨fun hin => (hnotin _ hin) (List.mem_cons_self _ _), hnodup⟩
      · intro i hi
        rw [List.map_cons, List.mem_cons] at hi
        rcases hi with rfl | hi
        · exact hmem
        · exact fun hseen => (hnotin i hi) (List.mem_cons_of_mem _ hseen)

lemma severityRank_cases (d : DetectedAntiPattern) :
    severityRank d =
      (match d.pattern.severity with
       | Severity.high => 0
       | Severity.medium => 1
       | Severity.low => 2) := by
  cases h : d.pattern.severity <;> simp [severityRank, h, Severity.value]

lemma dedup_map_sugg_ne (aps : List DetectedAntiPattern) (h : aps ≠ []) :
    (dedupById [] (sortBySeverity aps)).map (fun d => d.pattern.suggestion) ≠ [] := by
  cases hs : sortBySeverity aps with
  | nil =>
    exfalso
    have hlen := length_sortBySeverity aps
    rw [hs] at hlen
    cases aps with
    | nil => exact h rfl
    | cons a as => simp at hlen
  | cons d ds =>
    simp only [dedupById]
    rw [if_neg (by simp)]
    simp

lemma gen_sugg_eq (dims : List DimensionScore) (aps : List DetectedAntiPattern) (h : aps ≠ []) :
    _generate_suggestions dims aps =
      (dedupById [] (sortBySeverity aps)).map (fun d => d.pattern.suggestion) := by
  unfold _generate_suggestions
  rw [collectSugg_eq_dedup]
  rw [if_neg (fun hcon => dedup_map_sugg_ne aps h hcon.2)]

/-- C9: the composer stable-sorts the detected anti-patterns ascending by
severity rank (High = 0, Medium = 1, Low = 2) -- sortedness plus
per-rank filter preservation characterize the stable sort, so catalog
order is the tie-break within equal severity -- and emits each detected
pattern's suggestion exactly once, deduplicated by pattern id, in that
order. -/
theorem claim_C9_suggestion_composer (dims : List DimensionScore)
    (aps : List DetectedAntiPattern) :
    (sortBySeverity aps).Pairwise (fun a b => severityRank a ≤ severityRank b) ∧
    (∀ n : Nat, (sortBySeverity aps).filter (fun d => severityRank d == n) =
      aps.filter (fun d => severityRank d == n)) ∧
    (∀ d : DetectedAntiPattern,
      severityRank d =
        (match d.pattern.severity with
         | Severity.high => 0
         | Severity.medium => 1
         | Severity.low => 2)) ∧
    ((dedupById [] (sortBySeverity aps)).map (fun d => d.pattern.id)).Nodup ∧
    (aps ≠ [] →
      _generate_suggestions dims aps =
        (dedupById [] (sortBySeverity aps)).map (fun d => d.pattern.suggestion)) :=
  ⟨sorted_sortBySeverity aps,
   fun n => filter_sortBySeverity aps n,
   severityRank_cases,
   (dedup_nodup [] (sortBySeverity aps)).1,
   gen_sugg_eq dims aps⟩

/-- Witness for C9 on a concrete two-pattern detection list. -/
theorem claim_C9_suggestion_composer_witness :
    ([⟨MISSING_ROLE, "e1"⟩, ⟨MISSING_CONTEXT, "e2"⟩] : List DetectedAntiPattern) ≠ [] ∧
    _generate_suggestions []
        [⟨MISSING_ROLE, "e1"⟩, ⟨MISSING_CONTEXT, "e2"⟩] =
      (dedupById []
          (sortBySeverity [⟨MISSING_ROLE, "e1"⟩, ⟨MISSING_CONTEXT, "e2"⟩])).map
        (fun d => d.pattern.suggestion) :=
  ⟨by simp,
   (claim_C9_suggestion_composer [] [⟨MISSING_ROLE, "e1"⟩, ⟨MISSING_CONTEXT, "e2"⟩]).2.2.2.2
     (by simp)⟩

/-! ## Claim C4: the suggestion list -/

/-- Counterexample to C4 as stated: the claim says the suggestion list
always has length between 1 and 8 because the encouragement message is
appended whenever zero anti-patterns are detected and the list is empty;
but the source guards the append with `not low_dims` (no dimension below
6.0), not with the anti-pattern count (analyzer.py:461), so a prompt with
zero detected anti-patterns and a low-scoring dimension yields an empty
suggestion list. -/
theorem claim_C4_counterexample :
    (analyze "as a format context must sample").anti_patterns = [] ∧
    (analyze "as a format context must sample").suggestions.length = 0 := by
  constructor
  · decide
  · decide

lemma gen_sugg_ne_of_dims (dims : List DimensionScore) (aps : List DetectedAntiPattern)
    (hall : ∀ d ∈ dims, 6 ≤ d.score) : _generate_suggestions dims aps ≠ [] := by
  unfold _generate_suggestions
  have hlow : dims.filter (fun d => d.score < 6) = [] := by
    rw [List.filter_eq_nil_iff]
    intro d hd
    simp only [decide_eq_true_eq, not_lt]
    exact hall d hd
  dsimp only
  split_ifs with hcond
  · simp
  · intro hsug
    exact hcond ⟨hlow, hsug⟩

/-- C4 (amended): the suggestion list always has length at most 8, and it
is non-empty whenever an anti-pattern was detected or no dimension scored
below 6.0; the encouragement message is appended exactly when no
dimension scored below 6.0 and the list is still empty, so when zero
anti-patterns are detected but some dimension scores below 6.0 the list
can be empty (length 0 to 8 overall). -/
theorem claim_C4_suggestions (s : String) :
    (analyze s).suggestions.length ≤ 8 ∧
    ((analyze s).anti_patterns ≠ [] → (analyze s).suggestions ≠ []) ∧
    ((∀ d ∈ (analyze s).dimensions, 6 ≤ d.score) → (analyze s).suggestions ≠ []) := by
  by_cases h : pyStrip s = ""
  · rw [analyze_of_empty s h]
    refine ⟨by norm_num [emptyResult], fun _ => by simp [emptyResult], fun _ => by simp [emptyResult]⟩
  · rw [analyze_of_nonempty s h]
    refine ⟨?_, ?_, ?_⟩
    · show (_generate_suggestions _ _).length ≤ 8
      simp only [_generate_suggestions]
      rw [collectSugg_eq_dedup]
      split_ifs with hcond
      · rw [hcond.2]
        simp
      · rw [List.length_map]
        refine le_trans (dedup_length_le _ _) ?_
        rw [length_sortBySeverity]
        refine le_trans (List.length_filterMap_le _ _) ?_
        rfl
    · intro haps
      show _generate_suggestions _ _ ≠ []
      rw [gen_sugg_eq _ _ haps]
      exact dedup_map_sugg_ne _ haps
    · intro hall
      exact gen_sugg_ne_of_dims _ _ hall

/-- Witness for C4 (amended) at a concrete input whose anti-pattern list
is non-empty. -/
theorem claim_C4_suggestions_witness :
    (analyze "hello").anti_patterns ≠ [] ∧ (analyze "hello").suggestions ≠ [] :=
  ⟨by decide, (claim_C4_suggestions "hello").2.1 (by decide)⟩

/-! ## Claim C10: detection evidence is never empty -/

lemma str_append_ne_empty_right (a b : String) (hb : b ≠ "") : a ++ b ≠ "" := by
  intro hcon
  apply hb
  obtain ⟨la⟩ := a
  obtain ⟨lb⟩ := b
  have hd : la ++ lb = [] := congrArg String.data hcon
  have hnil := List.append_eq_nil.mp hd
  exact congrArg String.mk hnil.2

lemma detectCond_evidence_ne (t tl : String) (ap : AntiPattern) (ev : String)
    (h : detectCond t tl ap = some ev) : ev ≠ "" := by
  unfold detectCond at h
  split_ifs at h <;>
    try (injection h with h
         rw [← h]
         first
           | decide
           | (apply str_append_ne_empty_right
              decide))
  rcases hm : (ap.positive_signals.filterMap fun p => wpSearch p t).head? with _ | m
  · simp only [hm] at h
    rcases hk : ap.keyword_signals.find? (fun kw => strContains tl kw) with _ | kw
    · simp only [hk] at h
      cases h
    · simp only [hk] at h
      injection h with h
      rw [← h]
      apply str_append_ne_empty_right
      decide
  · simp only [hm] at h
    injection h with h
    rw [← h]
    apply str_append_ne_empty_right
    decide

/-- C10: every detected anti-pattern in any analysis result carries a
non-empty evidence string -- each dispatch branch of the detector sets a
fixed descriptive message, the task-count message, or a quoted
Matched/Contains string before the entry is appended. -/
theorem claim_C10_evidence_nonempty (s : String) :
    ∀ d ∈ (analyze s).anti_patterns, d.evidence ≠ "" := by
  intro d hd
  by_cases h : pyStrip s = ""
  · rw [analyze_of_empty s h] at hd
    exact absurd hd (List.not_mem_nil d)
  · rw [analyze_of_nonempty s h] at hd
    obtain ⟨ap, hap, hone⟩ := List.mem_filterMap.mp hd
    obtain ⟨hpat, hev⟩ := detectOne_some _ _ _ _ hone
    exact detectCond_evidence_ne _ _ _ _ hev

/-- Witness for C10 at a concrete input and a concrete detection. -/
theorem claim_C10_evidence_nonempty_witness :
    (⟨MISSING_ROLE, "No role or persona assignment found"⟩ : DetectedAntiPattern) ∈
        (analyze "hello").anti_patterns ∧
    (⟨MISSING_ROLE, "No role or persona assignment found"⟩ : DetectedAntiPattern).evidence ≠ "" :=
  ⟨by decide,
   claim_C10_evidence_nonempty "hello" ⟨MISSING_ROLE, "No role or persona assignment found"⟩
     (by decide)⟩

end PromptLab
